import Mathlib

/-
Shallow embedding of src/SimTKmath/LinearAlgebra/src/LapackInterface.cpp
(the Simbody templatized C++ facade over LAPACK/BLAS).

Modelling conventions:
 * Machine floating-point values are embedded as exact rationals (ℚ);
   complex values as pairs (re, im) : ℚ × ℚ.
 * The underlying LAPACK routines (dgelss_, dgeev_, ...) are external to the
   repository; they are treated as oracles: the values they write back
   (workspace-size replies, info codes, eigenvalue/eigenvector arrays) are
   universally quantified inputs of the embedded wrappers.
 * Each wrapper's status-code normalization is embedded as a function from the
   oracle's returned `info` to `Except (String × Int) (Option Int)`:
   `Except.error (routine, pos)` models `SimTK_THROW2(IllegalLapackArg, routine, info)`,
   `Except.ok (some i)` models a normal return that hands `i` back through the
   wrapper's `int& info` out-parameter, and `Except.ok none` models a normal
   return of a wrapper whose `info` is a function-local variable that the
   caller never sees (potrs, sytrs, getrs).
 * Each wrapper's scratch-buffer traffic is embedded as a list of events
   (allocations, resizes and underlying-routine invocations) in program order.
-/

/-- The file-scope constant `static const double EPS = .000001;`
(LapackInterface.cpp:44), used by the real-kind geev eigenvector repacking. -/
def EPS : ℚ := 1/1000000

/-- Modelled from the spec: `SimTK::Exception::IllegalLapackArg` is declared in
SimTKcommon, outside src/.  Per the spec's error taxonomy, a throw site
`SimTK_THROW2(IllegalLapackArg, routine, info)` with `info = -k` surfaces an
InvalidArgument condition naming the wrapped routine and the 1-based argument
position `k = -info`. -/
def mkIllegalLapackArg (routine : String) (info : Int) : String × Int :=
  (routine, -info)

/-- Common shape of the wrappers that end with
`if (info < 0) SimTK_THROW2(IllegalLapackArg, routine, info);`
and expose `info` through an `int& info` out-parameter. -/
def checkedInfoOut (routine : String) (info : Int) : Except (String × Int) (Option Int) :=
  if info < 0 then Except.error (mkIllegalLapackArg routine info) else Except.ok (some info)

/-- Common shape of the wrappers that end with
`if (info < 0) SimTK_THROW2(IllegalLapackArg, routine, info);`
but keep `info` in a function-local variable (`int info;`) with no out-parameter:
potrs, sytrs and getrs.  A non-negative info is discarded. -/
def checkedInfoLocal (routine : String) (info : Int) : Except (String × Int) (Option Int) :=
  if info < 0 then Except.error (mkIllegalLapackArg routine info) else Except.ok none

-- Status normalization of each specialization, transcribed from the source.

-- gelss (LapackInterface.cpp:56-136): checks info < 0, int& info out-parameter.
def gelss_d_info : Int → Except (String × Int) (Option Int) := checkedInfoOut "dgelss"
def gelss_s_info : Int → Except (String × Int) (Option Int) := checkedInfoOut "sgelss"
def gelss_c_info : Int → Except (String × Int) (Option Int) := checkedInfoOut "cgelss"
def gelss_z_info : Int → Except (String × Int) (Option Int) := checkedInfoOut "zgelss"

-- potrs (139-205): checks info < 0; info is a local variable, no out-parameter.
def potrs_d_info : Int → Except (String × Int) (Option Int) := checkedInfoLocal "dpotrs"
def potrs_s_info : Int → Except (String × Int) (Option Int) := checkedInfoLocal "spotrs"
def potrs_c_info : Int → Except (String × Int) (Option Int) := checkedInfoLocal "cpotrs"
def potrs_z_info : Int → Except (String × Int) (Option Int) := checkedInfoLocal "zpotrs"

-- sytrs (206-277): checks info < 0; local info; the complex kinds call the
-- Hermitian routines chetrs_/zhetrs_ and accordingly throw with those names.
def sytrs_d_info : Int → Except (String × Int) (Option Int) := checkedInfoLocal "dsytrs"
def sytrs_s_info : Int → Except (String × Int) (Option Int) := checkedInfoLocal "ssytrs"
def sytrs_c_info : Int → Except (String × Int) (Option Int) := checkedInfoLocal "chetrs"
def sytrs_z_info : Int → Except (String × Int) (Option Int) := checkedInfoLocal "zhetrs"

-- getrs (279-345): checks info < 0; local info.
def getrs_d_info : Int → Except (String × Int) (Option Int) := checkedInfoLocal "dgetrs"
def getrs_s_info : Int → Except (String × Int) (Option Int) := checkedInfoLocal "sgetrs"
def getrs_c_info : Int → Except (String × Int) (Option Int) := checkedInfoLocal "cgetrs"
def getrs_z_info : Int → Except (String × Int) (Option Int) := checkedInfoLocal "zgetrs"

-- syevx (354-462): checks info < 0 after the real call; int& info out-parameter.
def syevx_s_info : Int → Except (String × Int) (Option Int) := checkedInfoOut "ssyevx"
def syevx_d_info : Int → Except (String × Int) (Option Int) := checkedInfoOut "dsyevx"
def syevx_z_info : Int → Except (String × Int) (Option Int) := checkedInfoOut "zheevx"
def syevx_c_info : Int → Except (String × Int) (Option Int) := checkedInfoOut "cheevx"

-- syev (470-549): s, d and complex<float> check the info of the second (real)
-- call; int& info out-parameter.
def syev_s_info : Int → Except (String × Int) (Option Int) := checkedInfoOut "ssyev"
def syev_d_info : Int → Except (String × Int) (Option Int) := checkedInfoOut "dsyev"
def syev_c_info : Int → Except (String × Int) (Option Int) := checkedInfoOut "cheev"

/-- syev for complex<double> (527-549) checks info right after the workspace
QUERY call and throws there, but performs no check after the second (real)
zheev_ call, whose info is handed back through the out-parameter unchecked. -/
def syev_z_info (infoQ infoR : Int) : Except (String × Int) (Option Int) :=
  if infoQ < 0 then Except.error (mkIllegalLapackArg "zheev" infoQ)
  else Except.ok (some infoR)

-- gesdd (556-666): checks info < 0; int& info out-parameter.
def gesdd_s_info : Int → Except (String × Int) (Option Int) := checkedInfoOut "sgesdd"
def gesdd_d_info : Int → Except (String × Int) (Option Int) := checkedInfoOut "dgesdd"
def gesdd_c_info : Int → Except (String × Int) (Option Int) := checkedInfoOut "cgesdd"
def gesdd_z_info : Int → Except (String × Int) (Option Int) := checkedInfoOut "zgesdd"

-- geev (676-824): checks info < 0; int& info out-parameter.
def geev_d_info : Int → Except (String × Int) (Option Int) := checkedInfoOut "dgeev"
def geev_s_info : Int → Except (String × Int) (Option Int) := checkedInfoOut "sgeev"
def geev_c_info : Int → Except (String × Int) (Option Int) := checkedInfoOut "cgeev"
def geev_z_info : Int → Except (String × Int) (Option Int) := checkedInfoOut "zgeev"

/-- getrf for double (826-834) calls dgetrf_ and returns with NO info check:
a negative info is handed back through the out-parameter without a throw. -/
def getrf_d_info (info : Int) : Except (String × Int) (Option Int) :=
  Except.ok (some info)

/-- getrf for float (836-843): same as the double kind, no info check. -/
def getrf_s_info (info : Int) : Except (String × Int) (Option Int) :=
  Except.ok (some info)

-- getrf complex kinds (845-871) DO check info < 0.
def getrf_z_info : Int → Except (String × Int) (Option Int) := checkedInfoOut "zgetrf"
def getrf_c_info : Int → Except (String × Int) (Option Int) := checkedInfoOut "cgetrf"

-- tzrzf (873-923): d, s, complex<float> check info < 0; int& info out-parameter.
def tzrzf_d_info : Int → Except (String × Int) (Option Int) := checkedInfoOut "dtzrzf"
def tzrzf_s_info : Int → Except (String × Int) (Option Int) := checkedInfoOut "stzrzf"
def tzrzf_c_info : Int → Except (String × Int) (Option Int) := checkedInfoOut "ctzrzf"

/-- tzrzf for complex<double> (901-909) calls ztzrzf_ with NO info check. -/
def tzrzf_z_info (info : Int) : Except (String × Int) (Option Int) :=
  Except.ok (some info)

-- geqp3 (925-981): checks info < 0; int& info out-parameter.
def geqp3_d_info : Int → Except (String × Int) (Option Int) := checkedInfoOut "dgeqp3"
def geqp3_s_info : Int → Except (String × Int) (Option Int) := checkedInfoOut "sgeqp3"
def geqp3_c_info : Int → Except (String × Int) (Option Int) := checkedInfoOut "cgeqp3"
def geqp3_z_info : Int → Except (String × Int) (Option Int) := checkedInfoOut "zgeqp3"

-- lascl (983-1041): checks info < 0; int& info out-parameter.
def lascl_d_info : Int → Except (String × Int) (Option Int) := checkedInfoOut "dlascl"
def lascl_s_info : Int → Except (String × Int) (Option Int) := checkedInfoOut "slascl"
def lascl_c_info : Int → Except (String × Int) (Option Int) := checkedInfoOut "clascl"
def lascl_z_info : Int → Except (String × Int) (Option Int) := checkedInfoOut "zlascl"

-- ormqr (1117-1171): checks info < 0; int& info out-parameter.
def ormqr_s_info : Int → Except (String × Int) (Option Int) := checkedInfoOut "sormqr"
def ormqr_d_info : Int → Except (String × Int) (Option Int) := checkedInfoOut "dormqr"
def ormqr_z_info : Int → Except (String × Int) (Option Int) := checkedInfoOut "zunmqr"
def ormqr_c_info : Int → Except (String × Int) (Option Int) := checkedInfoOut "cunmqr"

-- ormrz (1213-1267): checks info < 0; int& info out-parameter.
def ormrz_s_info : Int → Except (String × Int) (Option Int) := checkedInfoOut "sormrz"
def ormrz_d_info : Int → Except (String × Int) (Option Int) := checkedInfoOut "dormrz"
def ormrz_c_info : Int → Except (String × Int) (Option Int) := checkedInfoOut "cunmrz"
def ormrz_z_info : Int → Except (String × Int) (Option Int) := checkedInfoOut "zunmrz"

-- potrf (1389-1441): checks info < 0; int& info out-parameter.
def potrf_d_info : Int → Except (String × Int) (Option Int) := checkedInfoOut "dpotrf"
def potrf_s_info : Int → Except (String × Int) (Option Int) := checkedInfoOut "spotrf"
def potrf_z_info : Int → Except (String × Int) (Option Int) := checkedInfoOut "zpotrf"
def potrf_c_info : Int → Except (String × Int) (Option Int) := checkedInfoOut "cpotrf"

-- sytrf (1442-1493): checks info < 0; int& info out-parameter.  Note: both
-- complex kinds use the SYMMETRIC factorizations zsytrf_/csytrf_ here.
def sytrf_s_info : Int → Except (String × Int) (Option Int) := checkedInfoOut "ssytrf"
def sytrf_d_info : Int → Except (String × Int) (Option Int) := checkedInfoOut "dsytrf"
def sytrf_z_info : Int → Except (String × Int) (Option Int) := checkedInfoOut "zsytrf"
def sytrf_c_info : Int → Except (String × Int) (Option Int) := checkedInfoOut "csytrf"

/-- A C-style cast `(int)x` of a real scalar, truncation toward zero,
applied to the embedded exact rational value. -/
def cIntOfRat (q : ℚ) : Int := q.num.tdiv (q.den : Int)

-- The four getLWork overloads (47-50): read the first element of the returned
-- workspace slot ((int)work[0], resp. (int)work[0].real()).
def getLWork_s (work : ℕ → ℚ) : Int := cIntOfRat (work 0)
def getLWork_d (work : ℕ → ℚ) : Int := cIntOfRat (work 0)
def getLWork_c (work : ℕ → ℚ × ℚ) : Int := cIntOfRat (work 0).1
def getLWork_z (work : ℕ → ℚ × ℚ) : Int := cIntOfRat (work 0).1

/-- Scratch-buffer and underlying-call events of one wrapper invocation, in
program order.  `allocInt`, `allocReal`, `allocCplx` are TypedWorkSpace
constructions of int/real/complex element kind; `resizeReal`/`resizeCplx` are
`.resize(...)` calls; `callR routine lwork` is an invocation of the underlying
LAPACK routine with the given scratch-length argument. -/
inductive Ev where
  | allocInt (size : Int)
  | allocReal (size : Int)
  | allocCplx (size : Int)
  | resizeReal (size : Int)
  | resizeCplx (size : Int)
  | callR (routine : String) (lwork : Int)
deriving DecidableEq

/-- Projection of an event trace onto the underlying-routine invocations. -/
def callsOf (evs : List Ev) : List (String × Int) :=
  evs.filterMap fun e => match e with
    | .callR r l => some (r, l)
    | _ => none

-- gelss<double> (56-74): query dgelss_ with lwork = -1 into a stack slot
-- wsize[1], lwork = (int)wsize[0], allocate work(lwork), real call.
def gelss_d_events (wsize0 : ℚ) : List Ev :=
  let lwork := cIntOfRat wsize0
  [Ev.callR "dgelss" (-1), Ev.allocReal lwork, Ev.callR "dgelss" lwork]

-- gelss<float> (76-94).
def gelss_s_events (wsize0 : ℚ) : List Ev :=
  let lwork := cIntOfRat wsize0
  [Ev.callR "sgelss" (-1), Ev.allocReal lwork, Ev.callR "sgelss" lwork]

-- gelss<complex<float>> (96-115): rwork(5*mn) first; lwork = (int)wsize[0].real().
def gelss_c_events (mn : Int) (wsize0 : ℚ × ℚ) : List Ev :=
  let lwork := cIntOfRat wsize0.1
  [Ev.allocReal (5*mn), Ev.callR "cgelss" (-1),
   Ev.allocCplx lwork, Ev.callR "cgelss" lwork]

-- gelss<complex<double>> (117-136).
def gelss_z_events (mn : Int) (wsize0 : ℚ × ℚ) : List Ev :=
  let lwork := cIntOfRat wsize0.1
  [Ev.allocReal (5*mn), Ev.callR "zgelss" (-1),
   Ev.allocCplx lwork, Ev.callR "zgelss" lwork]

-- syev<float> (470-485).
def syev_s_events (wsize0 : ℚ) : List Ev :=
  let lwork := cIntOfRat wsize0
  [Ev.callR "ssyev" (-1), Ev.allocReal lwork, Ev.callR "ssyev" lwork]

-- syev<double> (487-502).
def syev_d_events (wsize0 : ℚ) : List Ev :=
  let lwork := cIntOfRat wsize0
  [Ev.callR "dsyev" (-1), Ev.allocReal lwork, Ev.callR "dsyev" lwork]

-- syev<complex<float>> (504-525): l = 3*n-2 clamped to at least 1, rwork(l).
def syev_c_events (n : Int) (wsize0 : ℚ × ℚ) : List Ev :=
  let l := 3*n - 2
  let l2 := if l < 1 then 1 else l
  let lwork := cIntOfRat wsize0.1
  [Ev.allocReal l2, Ev.callR "cheev" (-1),
   Ev.allocCplx lwork, Ev.callR "cheev" lwork]

-- syev<complex<double>> (527-549): like complex<float>, but the info of the
-- query call is checked BETWEEN the two calls, so a negative query info
-- aborts before the allocation and the real call.
def syev_z_events (n : Int) (wsize0 : ℚ × ℚ) (infoQ : Int) : List Ev :=
  let l := 3*n - 2
  let l2 := if l < 1 then 1 else l
  let lwork := cIntOfRat wsize0.1
  [Ev.allocReal l2, Ev.callR "zheev" (-1)] ++
    (if infoQ < 0 then []
     else [Ev.allocCplx lwork, Ev.callR "zheev" lwork])

-- syevx<float> (354-379): iwork(5*n) first.
def syevx_s_events (n : Int) (wsize0 : ℚ) : List Ev :=
  let lwork := cIntOfRat wsize0
  [Ev.allocInt (5*n), Ev.callR "ssyevx" (-1),
   Ev.allocReal lwork, Ev.callR "ssyevx" lwork]

-- syevx<double> (381-406).
def syevx_d_events (n : Int) (wsize0 : ℚ) : List Ev :=
  let lwork := cIntOfRat wsize0
  [Ev.allocInt (5*n), Ev.callR "dsyevx" (-1),
   Ev.allocReal lwork, Ev.callR "dsyevx" lwork]

-- syevx<complex<double>> (408-434): iwork(5*n), rwork(7*n).
def syevx_z_events (n : Int) (wsize0 : ℚ × ℚ) : List Ev :=
  let lwork := cIntOfRat wsize0.1
  [Ev.allocInt (5*n), Ev.allocReal (7*n), Ev.callR "zheevx" (-1),
   Ev.allocCplx lwork, Ev.callR "zheevx" lwork]

-- syevx<complex<float>> (436-462).
def syevx_c_events (n : Int) (wsize0 : ℚ × ℚ) : List Ev :=
  let lwork := cIntOfRat wsize0.1
  [Ev.allocInt (5*n), Ev.allocReal (7*n), Ev.callR "cheevx" (-1),
   Ev.allocCplx lwork, Ev.callR "cheevx" lwork]

-- gesdd<float> (556-577): work(1), iwork(8*mn), query, work.resize(lwork), real.
def gesdd_s_events (m n : Int) (wsize0 : ℚ) : List Ev :=
  let mn := min m n
  let lwork := cIntOfRat wsize0
  [Ev.allocReal 1, Ev.allocInt (8*mn), Ev.callR "sgesdd" (-1),
   Ev.resizeReal lwork, Ev.callR "sgesdd" lwork]

-- gesdd<double> (578-599).
def gesdd_d_events (m n : Int) (wsize0 : ℚ) : List Ev :=
  let mn := min m n
  let lwork := cIntOfRat wsize0
  [Ev.allocReal 1, Ev.allocInt (8*mn), Ev.callR "dgesdd" (-1),
   Ev.resizeReal lwork, Ev.callR "dgesdd" lwork]

-- gesdd<complex<float>> (607-635): rwork resized to 5*mn when jobz == 'N',
-- otherwise 5*mn*mn + 7*mn; work(1); iwork(8*mn); query; resize; real call.
def gesdd_c_events (jobz : Char) (m n : Int) (wsize0 : ℚ × ℚ) : List Ev :=
  let mn := min m n
  let lwork := cIntOfRat wsize0.1
  [Ev.resizeReal (if jobz = 'N' then 5*mn else 5*mn*mn + 7*mn),
   Ev.allocCplx 1, Ev.allocInt (8*mn), Ev.callR "cgesdd" (-1),
   Ev.resizeCplx lwork, Ev.callR "cgesdd" lwork]

-- gesdd<complex<double>> (637-666).
def gesdd_z_events (jobz : Char) (m n : Int) (wsize0 : ℚ × ℚ) : List Ev :=
  let mn := min m n
  let lwork := cIntOfRat wsize0.1
  [Ev.resizeReal (if jobz = 'N' then 5*mn else 5*mn*mn + 7*mn),
   Ev.allocCplx 1, Ev.allocInt (8*mn), Ev.callR "zgesdd" (-1),
   Ev.resizeCplx lwork, Ev.callR "zgesdd" lwork]

-- geev<complex<float>> (784-803): Rwork(2*n); the primary work buffer and its
-- length are supplied by the caller, passed through to cgeev_.
def geev_c_events (n lwork : Int) : List Ev :=
  [Ev.allocReal (2*n), Ev.callR "cgeev" lwork]

-- geev<complex<double>> (805-824).
def geev_z_events (n lwork : Int) : List Ev :=
  [Ev.allocReal (2*n), Ev.callR "zgeev" lwork]

/-- The four numeric element kinds the facade supports. -/
inductive EltKind where
  | real32
  | real64
  | complex32
  | complex64
deriving DecidableEq

/-- Underlying routine invoked by the four sytrs specializations (206-277):
dsytrs_/ssytrs_ for the real kinds, and the HERMITIAN solvers
chetrs_/zhetrs_ for the complex kinds. -/
def sytrsRoutine : EltKind → String
  | .real64 => "dsytrs"
  | .real32 => "ssytrs"
  | .complex32 => "chetrs"
  | .complex64 => "zhetrs"

/-- A C++ template instantiation kind: one of the four specialized element
kinds, or any other type parameter, for which the unspecialized generic
template is instantiated. -/
inductive InstKind where
  | real32
  | real64
  | complex32
  | complex64
  | unsupported
deriving DecidableEq

/-- What an instantiation of a generic wrapper resolves to: a kind-specific
implementation calling the named underlying routine, or the unspecialized
generic body `{ assert(false); }`, a runtime assertion. -/
inductive Dispatch where
  | routine (nm : String)
  | runtimeAssert
deriving DecidableEq

-- geev: generic template (668-674) has body assert(false); specializations
-- at 676, 732, 784, 805.
def geevDispatch : InstKind → Dispatch
  | .real64 => .routine "dgeev"
  | .real32 => .routine "sgeev"
  | .complex32 => .routine "cgeev"
  | .complex64 => .routine "zgeev"
  | .unsupported => .runtimeAssert

-- syev: generic template (465-469) has body assert(false).
def syevDispatch : InstKind → Dispatch
  | .real32 => .routine "ssyev"
  | .real64 => .routine "dsyev"
  | .complex32 => .routine "cheev"
  | .complex64 => .routine "zheev"
  | .unsupported => .runtimeAssert

-- syevx: generic template (347-353) has body assert(false).
def syevxDispatch : InstKind → Dispatch
  | .real32 => .routine "ssyevx"
  | .real64 => .routine "dsyevx"
  | .complex32 => .routine "cheevx"
  | .complex64 => .routine "zheevx"
  | .unsupported => .runtimeAssert

-- gelss: generic template (52-54) has body assert(false).
def gelssDispatch : InstKind → Dispatch
  | .real32 => .routine "sgelss"
  | .real64 => .routine "dgelss"
  | .complex32 => .routine "cgelss"
  | .complex64 => .routine "zgelss"
  | .unsupported => .runtimeAssert

-- gesdd: generic template (550-555) has body assert(false).
def gesddDispatch : InstKind → Dispatch
  | .real32 => .routine "sgesdd"
  | .real64 => .routine "dgesdd"
  | .complex32 => .routine "cgesdd"
  | .complex64 => .routine "zgesdd"
  | .unsupported => .runtimeAssert

-- sytrf: generic template (1494-1495) has body assert(false).
def sytrfDispatch : InstKind → Dispatch
  | .real32 => .routine "ssytrf"
  | .real64 => .routine "dsytrf"
  | .complex32 => .routine "csytrf"
  | .complex64 => .routine "zsytrf"
  | .unsupported => .runtimeAssert

/-- Argument tuple forwarded to the underlying Fortran `ilaenv_`. -/
structure IlaenvCall where
  ispec : Int
  routineName : String
  opts : String
  dim1 : Int
  dim2 : Int
  dim3 : Int
  dim4 : Int
  len1 : Int
  len2 : Int
deriving DecidableEq

-- ilaenv (1497-1544): each kind prepends its precision letter to the name via
-- strcat and forwards (ispec, prefixed name, opts, n1, n2, n3, n3, 6,
-- strlen(opts)) -- note n3 is passed in BOTH the third and the fourth
-- dimension positions; the wrapper's n4 argument is never forwarded.
def ilaenv_d (ispec : Int) (nm opts : String) (n1 n2 n3 _n4 : Int) : IlaenvCall :=
  ⟨ispec, "d" ++ nm, opts, n1, n2, n3, n3, 6, (opts.length : Int)⟩

def ilaenv_s (ispec : Int) (nm opts : String) (n1 n2 n3 _n4 : Int) : IlaenvCall :=
  ⟨ispec, "s" ++ nm, opts, n1, n2, n3, n3, 6, (opts.length : Int)⟩

def ilaenv_z (ispec : Int) (nm opts : String) (n1 n2 n3 _n4 : Int) : IlaenvCall :=
  ⟨ispec, "z" ++ nm, opts, n1, n2, n3, n3, 6, (opts.length : Int)⟩

def ilaenv_c (ispec : Int) (nm opts : String) (n1 n2 n3 _n4 : Int) : IlaenvCall :=
  ⟨ispec, "c" ++ nm, opts, n1, n2, n3, n3, 6, (opts.length : Int)⟩

/-- One iteration of the real-kind geev repacking loop when
`fabs(wi[j]) < EPS` (712-714): for every row i < n, output column j gets
`rightVectors[j*n+i] = complex(vr[j*n+i], 0)`.  Written as the update of the
flat output array: indices k with j*n <= k < j*n + n are exactly the j*n+i,
i < n. -/
def writeRealCol (n j : ℕ) (vr : ℕ → ℚ) (out : ℕ → ℚ × ℚ) : ℕ → ℚ × ℚ :=
  fun k => if j*n ≤ k ∧ k < j*n + n then (vr k, 0) else out k

/-- One iteration of the repacking loop in the conjugate-pair case (715-720):
`rightVectors[j*n+i]     = complex(vr[j*n+i],  vr[(j+1)*n+i])` and
`rightVectors[(j+1)*n+i] = complex(vr[j*n+i], -vr[(j+1)*n+i])` for i < n.
In flat-index form: for k in column j, the pair read is (vr k, vr (k+n));
for k in column j+1 it is (vr (k-n), -vr k). -/
def writePairCols (n j : ℕ) (vr : ℕ → ℚ) (out : ℕ → ℚ × ℚ) : ℕ → ℚ × ℚ :=
  fun k =>
    if j*n ≤ k ∧ k < j*n + n then (vr k, vr (k+n))
    else if (j+1)*n ≤ k ∧ k < (j+1)*n + n then (vr (k-n), -vr k)
    else out k

/-- The repacking loop of geev for the real element kinds (710-722 for double,
766-780 for float -- the two bodies are identical up to the numeric type,
both comparing against the same file-scope constant EPS; float additionally
casts it, `(float)EPS`).  `for (j = 0; j < n; j++)`: when `fabs(wi[j]) < EPS`
write the real column j and continue at j+1; otherwise write conjugate columns
j and j+1 and continue at j+2 (the in-loop `j++` plus the loop increment). -/
def repackFrom (n : ℕ) (wi vr : ℕ → ℚ) (j : ℕ) (out : ℕ → ℚ × ℚ) : ℕ → ℚ × ℚ :=
  if _h : j < n then
    if |wi j| < EPS then repackFrom n wi vr (j+1) (writeRealCol n j vr out)
    else repackFrom n wi vr (j+2) (writePairCols n j vr out)
  else out
termination_by n - j

/-- The complete repacking pass, started at column 0 on the caller's
rightVectors array `out`. -/
def geevRepack (n : ℕ) (wi vr : ℕ → ℚ) (out : ℕ → ℚ × ℚ) : ℕ → ℚ × ℚ :=
  repackFrom n wi vr 0 out

/-- Which column indices the repacking loop visits: column 0 always; after a
visited real column j the loop visits j+1; after a visited conjugate-pair
column j it skips j+1 (visits j+2). -/
def visited (wi : ℕ → ℚ) : ℕ → Bool
  | 0 => true
  | j+1 => if visited wi j then decide (|wi j| < EPS) else true

/-- The eigenvalue assembly loop of real-kind geev (700-702):
`values[i] = complex(wr[i], wi[i])` for i < n; entries past n are untouched. -/
def geevValuesOut (n : ℕ) (values0 : ℕ → ℚ × ℚ) (wr wi : ℕ → ℚ) : ℕ → ℚ × ℚ :=
  fun i => if i < n then (wr i, wi i) else values0 i

/-- The zero-initialization of the wi buffer before the underlying call
(689-690): `for (i = 0; i < n; i++) wi.data[i] = 0;`. -/
def wiZeroInit (n : ℕ) (wi0 : ℕ → ℚ) : ℕ → ℚ :=
  fun i => if i < n then 0 else wi0 i

/-- The repacked right-eigenvector output of real-kind geev.  The wrapper
receives the caller's `ldvr` argument (and passes it to the underlying
routine), but the repacking loop itself indexes both the internal n-by-n vr
buffer and the output array with column stride exactly n; `ldvr` is unused
by the repacking. -/
def geevRightVectors (n _ldvr : ℕ) (wi vr : ℕ → ℚ) (rv0 : ℕ → ℚ × ℚ) : ℕ → ℚ × ℚ :=
  repackFrom n wi vr 0 rv0

/-- The promotion copy loop shared by lange<float> (1057-1063) and
lange<complex<float>> (1092-1099): a dense buffer of exactly m*n elements
(the allocation size of the TypedWorkSpace da/za), with
`da.data[j*m + i] = a[j*lda + i]` for i < m, j < n; in flat-index form the
element at position k is read from a at (k/m)*lda + k%m. -/
def daList {α : Type} (m n lda : ℕ) (a : ℕ → α) : List α :=
  (List.range (m*n)).map fun k => a ((k / m) * lda + k % m)

/-- lange<float> (1044-1067): copies the float matrix into a freshly
allocated double buffer with leading dimension m and returns
`dlange_(norm, m, n, da.data, m, work.data, 1)`.  The underlying dlange_ is an
oracle taking (norm, m, n, buffer, leading dimension). -/
def lange_s (dlange : Char → ℕ → ℕ → List ℚ → ℕ → ℚ)
    (norm : Char) (m n : ℕ) (a : ℕ → ℚ) (lda : ℕ) : ℚ :=
  dlange norm m n (daList m n lda a) m

/-- lange<double> (1069-1078): passes the caller's buffer and lda straight to
dlange_.  The buffer is embedded as the list of values dlange_ may read. -/
def lange_d (dlange : Char → ℕ → ℕ → List ℚ → ℕ → ℚ)
    (norm : Char) (m n : ℕ) (buf : List ℚ) (lda : ℕ) : ℚ :=
  dlange norm m n buf lda

/-- lange<complex<float>> (1080-1104): copies into a complex<double> buffer
with leading dimension m and returns `zlange_(norm, m, n, za.data, m, ...)`. -/
def lange_c (zlange : Char → ℕ → ℕ → List (ℚ × ℚ) → ℕ → ℚ)
    (norm : Char) (m n : ℕ) (a : ℕ → ℚ × ℚ) (lda : ℕ) : ℚ :=
  zlange norm m n (daList m n lda a) m

/-- lange<complex<double>> (1106-1115): passes the caller's buffer and lda
straight to zlange_. -/
def lange_z (zlange : Char → ℕ → ℕ → List (ℚ × ℚ) → ℕ → ℚ)
    (norm : Char) (m n : ℕ) (buf : List (ℚ × ℚ)) (lda : ℕ) : ℚ :=
  zlange norm m n buf lda

-- Helper lemmas about the repacking loop.

theorem repackFrom_eq (n : ℕ) (wi vr : ℕ → ℚ) (j : ℕ) (out : ℕ → ℚ × ℚ) :
    repackFrom n wi vr j out =
      if _h : j < n then
        (if |wi j| < EPS then repackFrom n wi vr (j+1) (writeRealCol n j vr out)
         else repackFrom n wi vr (j+2) (writePairCols n j vr out))
      else out := by
  rw [repackFrom]

theorem repackFrom_step_real (n : ℕ) (wi vr : ℕ → ℚ) (j : ℕ) (out : ℕ → ℚ × ℚ)
    (h1 : j < n) (h2 : |wi j| < EPS) :
    repackFrom n wi vr j out = repackFrom n wi vr (j+1) (writeRealCol n j vr out) := by
  rw [repackFrom_eq, dif_pos h1, if_pos h2]

theorem repackFrom_step_pair (n : ℕ) (wi vr : ℕ → ℚ) (j : ℕ) (out : ℕ → ℚ × ℚ)
    (h1 : j < n) (h2 : ¬ |wi j| < EPS) :
    repackFrom n wi vr j out = repackFrom n wi vr (j+2) (writePairCols n j vr out) := by
  rw [repackFrom_eq, dif_pos h1, if_neg h2]

theorem repackFrom_stop (n : ℕ) (wi vr : ℕ → ℚ) (j : ℕ) (out : ℕ → ℚ × ℚ)
    (h : ¬ j < n) : repackFrom n wi vr j out = out := by
  rw [repackFrom_eq, dif_neg h]

theorem writeRealCol_at (n j i : ℕ) (hi : i < n) (vr : ℕ → ℚ) (out : ℕ → ℚ × ℚ) :
    writeRealCol n j vr out (j*n+i) = (vr (j*n+i), 0) := by
  unfold writeRealCol
  rw [if_pos ⟨Nat.le_add_right _ _, Nat.add_lt_add_left hi _⟩]

theorem writeRealCol_low (n j k : ℕ) (hk : k < j*n) (vr : ℕ → ℚ) (out : ℕ → ℚ × ℚ) :
    writeRealCol n j vr out k = out k := by
  unfold writeRealCol
  rw [if_neg (fun hc => (not_le.mpr hk) hc.1)]

theorem writePairCols_at1 (n j i : ℕ) (hi : i < n) (vr : ℕ → ℚ) (out : ℕ → ℚ × ℚ) :
    writePairCols n j vr out (j*n+i) = (vr (j*n+i), vr ((j+1)*n+i)) := by
  unfold writePairCols
  rw [if_pos ⟨Nat.le_add_right _ _, Nat.add_lt_add_left hi _⟩]
  have hidx : j*n+i+n = (j+1)*n+i := by
    rw [Nat.succ_mul]
    exact Nat.add_right_comm _ _ _
  rw [hidx]

theorem writePairCols_at2 (n j i : ℕ) (hi : i < n) (vr : ℕ → ℚ) (out : ℕ → ℚ × ℚ) :
    writePairCols n j vr out ((j+1)*n+i) = (vr (j*n+i), -vr ((j+1)*n+i)) := by
  unfold writePairCols
  have hsm : (j+1)*n = j*n + n := Nat.succ_mul j n
  rw [if_neg, if_pos ⟨Nat.le_add_right _ _, Nat.add_lt_add_left hi _⟩]
  · have hidx : (j+1)*n+i-n = j*n+i := by omega
    rw [hidx]
  · rintro ⟨-, h2⟩
    omega

theorem writePairCols_low (n j k : ℕ) (hk : k < j*n) (vr : ℕ → ℚ) (out : ℕ → ℚ × ℚ) :
    writePairCols n j vr out k = out k := by
  unfold writePairCols
  have hk2 : k < (j+1)*n := lt_of_lt_of_le hk (mul_le_mul_right' (Nat.le_succ j) n)
  rw [if_neg (fun hc => (not_le.mpr hk) hc.1), if_neg (fun hc => (not_le.mpr hk2) hc.1)]

/-- Frame property: the loop started at column j never touches flat indices
below j*n. -/
theorem repack_frame (n : ℕ) (wi vr : ℕ → ℚ) :
    ∀ d j (out : ℕ → ℚ × ℚ) k, n - j ≤ d → k < j * n →
      repackFrom n wi vr j out k = out k := by
  intro d
  induction d with
  | zero =>
      intro j out k hd hk
      have hjn : ¬ j < n := by omega
      rw [repackFrom_stop n wi vr j out hjn]
  | succ d ih =>
      intro j out k hd hk
      by_cases hjn : j < n
      · have h1 : k < (j+1) * n := lt_of_lt_of_le hk (mul_le_mul_right' (Nat.le_succ j) n)
        have h2 : k < (j+2) * n := lt_of_lt_of_le h1 (mul_le_mul_right' (Nat.le_succ (j+1)) n)
        by_cases hE : |wi j| < EPS
        · rw [repackFrom_step_real n wi vr j out hjn hE,
              ih (j+1) _ k (by omega) h1,
              writeRealCol_low n j k hk]
        · rw [repackFrom_step_pair n wi vr j out hjn hE,
              ih (j+2) _ k (by omega) h2,
              writePairCols_low n j k hk]
      · rw [repackFrom_stop n wi vr j out hjn]

/-- Characterization of the loop's output at every visited column: a real
column (|wi j| < EPS) is written as (vr column j, 0); a conjugate-pair column
is written together with its partner column j+1 as exact conjugates. -/
theorem repack_visit (n : ℕ) (wi vr : ℕ → ℚ) :
    ∀ d j0 (out : ℕ → ℚ × ℚ), n - j0 ≤ d → visited wi j0 = true →
      ∀ j, j0 ≤ j → j < n → visited wi j = true →
        ((|wi j| < EPS → ∀ i, i < n →
            repackFrom n wi vr j0 out (j*n+i) = (vr (j*n+i), 0)) ∧
         (¬ |wi j| < EPS → ∀ i, i < n →
            repackFrom n wi vr j0 out (j*n+i) = (vr (j*n+i), vr ((j+1)*n+i)) ∧
            repackFrom n wi vr j0 out ((j+1)*n+i) = (vr (j*n+i), -vr ((j+1)*n+i)))) := by
  intro d
  induction d with
  | zero =>
      intro j0 out hd hv0 j hj0 hjn hvj
      omega
  | succ d ih =>
      intro j0 out hd hv0 j hj0 hjn hvj
      have hj0n : j0 < n := lt_of_le_of_lt hj0 hjn
      by_cases hE0 : |wi j0| < EPS
      · -- the loop writes the single real column j0 and continues at j0+1
        have hv1 : visited wi (j0+1) = true := by
          unfold visited
          rw [hv0, if_pos rfl, decide_eq_true hE0]
        rcases Nat.eq_or_lt_of_le hj0 with heq | hlt
        · subst heq
          constructor
          · intro _ i hi
            have hidx : j0*n+i < (j0+1)*n := by
              rw [Nat.succ_mul]
              exact Nat.add_lt_add_left hi _
            rw [repackFrom_step_real n wi vr j0 out hj0n hE0,
                repack_frame n wi vr (n-(j0+1)) (j0+1) _ _ le_rfl hidx,
                writeRealCol_at n j0 i hi]
          · intro hE
            exact absurd hE0 hE
        · have hrec := ih (j0+1) (writeRealCol n j0 vr out) (by omega) hv1 j hlt hjn hvj
          rw [repackFrom_step_real n wi vr j0 out hj0n hE0]
          exact hrec
      · -- the loop writes conjugate columns j0, j0+1 and continues at j0+2
        have hv1 : visited wi (j0+1) = false := by
          unfold visited
          rw [hv0, if_pos rfl, decide_eq_false hE0]
        have hv2 : visited wi (j0+2) = true := by
          show visited wi (j0+1+1) = true
          unfold visited
          rw [hv1, if_neg]
          exact fun h => Bool.noConfusion h
        rcases Nat.eq_or_lt_of_le hj0 with heq | hlt
        · subst heq
          constructor
          · intro hE
            exact absurd hE hE0
          · intro _ i hi
            have hidx1 : j0*n+i < (j0+2)*n := by
              have hsm1 : (j0+1)*n = j0*n+n := Nat.succ_mul j0 n
              have hsm2 : (j0+2)*n = (j0+1)*n+n := Nat.succ_mul (j0+1) n
              omega
            have hidx2 : (j0+1)*n+i < (j0+2)*n := by
              have hsm2 : (j0+2)*n = (j0+1)*n+n := Nat.succ_mul (j0+1) n
              omega
            rw [repackFrom_step_pair n wi vr j0 out hj0n hE0,
                repack_frame n wi vr (n-(j0+2)) (j0+2) _ _ le_rfl hidx1,
                repack_frame n wi vr (n-(j0+2)) (j0+2) _ _ le_rfl hidx2,
                writePairCols_at1 n j0 i hi, writePairCols_at2 n j0 i hi]
            exact ⟨rfl, rfl⟩
        · -- j > j0; the loop does not visit j0+1, so j ≥ j0+2
          have hj2 : j0+2 ≤ j := by
            rcases Nat.eq_or_lt_of_le hlt with heq1 | hlt1
            · exfalso
              have hvj1 : visited wi (j0+1) = true := by
                rw [show j0 + 1 = j from heq1]
                exact hvj
              rw [hv1] at hvj1
              exact Bool.noConfusion hvj1
            · omega
          have hrec := ih (j0+2) (writePairCols n j0 vr out) (by omega) hv2 j hj2 hjn hvj
          rw [repackFrom_step_pair n wi vr j0 out hj0n hE0]
          exact hrec

/-- The promoted copy depends only on the in-matrix entries of the source
buffer: entries between row m and the leading dimension of each column are
never read. -/
theorem daList_congr {α : Type} (m n lda : ℕ) (a b : ℕ → α)
    (hab : ∀ i, i < m → ∀ j, j < n → a (j*lda+i) = b (j*lda+i)) :
    daList m n lda a = daList m n lda b := by
  unfold daList
  apply List.map_congr_left
  intro k hk
  rw [List.mem_range] at hk
  have hm : 0 < m := by
    rcases Nat.eq_zero_or_pos m with h | h
    · subst h; simp at hk
    · exact h
  have hi : k % m < m := Nat.mod_lt _ hm
  have hj : k / m < n := Nat.div_lt_of_lt_mul (by omega)
  exact hab (k % m) hi (k / m) hj

theorem checkedInfoOut_pos (nm : String) :
    ∀ i : Int, 0 < i → checkedInfoOut nm i = Except.ok (some i) := by
  intro i hi
  unfold checkedInfoOut
  rw [if_neg (by omega)]

theorem checkedInfoLocal_pos (nm : String) :
    ∀ i : Int, 0 < i → checkedInfoLocal nm i = Except.ok none := by
  intro i hi
  unfold checkedInfoLocal
  rw [if_neg (by omega)]

-- Claim theorems.

/-- Claim C1 (code-bug evidence): the claim says EVERY wrapper raises
IllegalLapackArg when the underlying routine returns info < 0, but
getrf<double> (826-834) and getrf<float> (836-843) perform no info check at
all and hand the negative code back through the out-parameter, as does
tzrzf<complex<double>> (901-909); compliant wrappers such as gelss<double>
do raise, naming the routine and the 1-based argument position -info. -/
theorem getrf_real_negative_info_unchecked :
    getrf_d_info (-4) = Except.ok (some (-4)) ∧
    getrf_s_info (-4) = Except.ok (some (-4)) ∧
    tzrzf_z_info (-4) = Except.ok (some (-4)) ∧
    gelss_d_info (-4) = Except.error ("dgelss", 4) ∧
    getrf_z_info (-4) = Except.error ("zgetrf", 4) :=
  ⟨rfl, rfl, rfl, rfl, rfl⟩

/-- Claim C2: in real-kind geev, for every column index j the repacking loop
visits: if fabs(wi[j]) < EPS the output eigenvector column j is
(vr column j, 0); otherwise columns j and j+1 are written as
vr_j + i*vr_[j+1] and vr_j - i*vr_[j+1] (the loop then advancing j by two,
per the `visited` reachability used in the hypothesis), so their imaginary
parts are exact negatives of each other; the threshold is the single fixed
constant EPS = 1e-6 shared by the float and double specializations. -/
theorem geev_real_repack_conjugate_pairs (n : ℕ) (wi vr : ℕ → ℚ)
    (out : ℕ → ℚ × ℚ) (j : ℕ) (hj : j < n) (hv : visited wi j = true) :
    EPS = 1/1000000 ∧
    (|wi j| < EPS → ∀ i, i < n →
       geevRepack n wi vr out (j*n+i) = (vr (j*n+i), 0)) ∧
    (¬ |wi j| < EPS → ∀ i, i < n →
       geevRepack n wi vr out (j*n+i) = (vr (j*n+i), vr ((j+1)*n+i)) ∧
       geevRepack n wi vr out ((j+1)*n+i) = (vr (j*n+i), -vr ((j+1)*n+i)) ∧
       (geevRepack n wi vr out ((j+1)*n+i)).2 = -(geevRepack n wi vr out (j*n+i)).2) := by
  have h := repack_visit n wi vr n 0 out (by omega) rfl j (Nat.zero_le j) hj hv
  refine ⟨rfl, h.1, fun hE i hi => ?_⟩
  obtain ⟨h1, h2⟩ := h.2 hE i hi
  have h1g : geevRepack n wi vr out (j*n+i) = (vr (j*n+i), vr ((j+1)*n+i)) := h1
  have h2g : geevRepack n wi vr out ((j+1)*n+i) = (vr (j*n+i), -vr ((j+1)*n+i)) := h2
  refine ⟨h1g, h2g, ?_⟩
  rw [h1g, h2g]

/-- Concrete instance of the C2 theorem: a 2-by-2 block with wi = 1 (above
EPS) repacks its two columns as exact complex conjugates. -/
theorem geev_real_repack_conjugate_pairs_witness :
    geevRepack 2 (fun _ => 1) (fun _ => 3) (fun _ => (0, 0)) 0 = (3, 3) ∧
    geevRepack 2 (fun _ => 1) (fun _ => 3) (fun _ => (0, 0)) 2 = (3, -3) := by
  have h := (geev_real_repack_conjugate_pairs 2 (fun _ => 1) (fun _ => 3)
      (fun _ => (0, 0)) 0 (by decide) rfl).2.2 (by norm_num [EPS]) 0 (by decide)
  exact ⟨h.1, h.2.1⟩

/-- Claim C4: the symmetric-indefinite solve sytrs at the complex element
kinds is routed to the Hermitian low-level solvers chetrs_/zhetrs_, never to
the generic symmetric variants csytrs_/zsytrs_. -/
theorem sytrs_complex_routes_hermitian :
    sytrsRoutine EltKind.complex32 = "chetrs" ∧
    sytrsRoutine EltKind.complex64 = "zhetrs" ∧
    sytrsRoutine EltKind.complex32 ≠ "csytrs" ∧
    sytrsRoutine EltKind.complex64 ≠ "zsytrs" := by
  refine ⟨rfl, rfl, ?_, ?_⟩ <;> decide

/-- Claim C7 counterexample: instantiating a generic wrapper at an
unsupported element kind reaches the unspecialized generic body, which is a
RUNTIME assertion (assert(false)), contradicting the claim that such a call
is rejected at compile time rather than by a runtime assertion. -/
theorem generic_fallback_runtime_assert :
    geevDispatch InstKind.unsupported = Dispatch.runtimeAssert ∧
    syevDispatch InstKind.unsupported = Dispatch.runtimeAssert :=
  ⟨rfl, rfl⟩

/-- Claim C7 amended: each of the six generic templates present in the file
(gelss, syevx, syev, gesdd, geev, sytrf) resolves every supported element
kind to its own specialization (no silent fallback for supported kinds), but
an unsupported kind reaches the generic fallback body `assert(false)`, a
runtime assertion, not a compile-time rejection. -/
theorem generic_dispatch_amended :
    (gelssDispatch InstKind.unsupported = Dispatch.runtimeAssert ∧
     syevDispatch InstKind.unsupported = Dispatch.runtimeAssert ∧
     syevxDispatch InstKind.unsupported = Dispatch.runtimeAssert ∧
     gesddDispatch InstKind.unsupported = Dispatch.runtimeAssert ∧
     geevDispatch InstKind.unsupported = Dispatch.runtimeAssert ∧
     sytrfDispatch InstKind.unsupported = Dispatch.runtimeAssert) ∧
    (gelssDispatch InstKind.real32 = Dispatch.routine "sgelss" ∧
     gelssDispatch InstKind.real64 = Dispatch.routine "dgelss" ∧
     gelssDispatch InstKind.complex32 = Dispatch.routine "cgelss" ∧
     gelssDispatch InstKind.complex64 = Dispatch.routine "zgelss") ∧
    (syevDispatch InstKind.real32 = Dispatch.routine "ssyev" ∧
     syevDispatch InstKind.real64 = Dispatch.routine "dsyev" ∧
     syevDispatch InstKind.complex32 = Dispatch.routine "cheev" ∧
     syevDispatch InstKind.complex64 = Dispatch.routine "zheev") ∧
    (syevxDispatch InstKind.real32 = Dispatch.routine "ssyevx" ∧
     syevxDispatch InstKind.real64 = Dispatch.routine "dsyevx" ∧
     syevxDispatch InstKind.complex32 = Dispatch.routine "cheevx" ∧
     syevxDispatch InstKind.complex64 = Dispatch.routine "zheevx") ∧
    (gesddDispatch InstKind.real32 = Dispatch.routine "sgesdd" ∧
     gesddDispatch InstKind.real64 = Dispatch.routine "dgesdd" ∧
     gesddDispatch InstKind.complex32 = Dispatch.routine "cgesdd" ∧
     gesddDispatch InstKind.complex64 = Dispatch.routine "zgesdd") ∧
    (geevDispatch InstKind.real32 = Dispatch.routine "sgeev" ∧
     geevDispatch InstKind.real64 = Dispatch.routine "dgeev" ∧
     geevDispatch InstKind.complex32 = Dispatch.routine "cgeev" ∧
     geevDispatch InstKind.complex64 = Dispatch.routine "zgeev") ∧
    (sytrfDispatch InstKind.real32 = Dispatch.routine "ssytrf" ∧
     sytrfDispatch InstKind.real64 = Dispatch.routine "dsytrf" ∧
     sytrfDispatch InstKind.complex32 = Dispatch.routine "csytrf" ∧
     sytrfDispatch InstKind.complex64 = Dispatch.routine "zsytrf") := by
  decide

/-- Claim C8: for all four element kinds, ilaenv forwards n3 in BOTH the
third and fourth dimension positions of the underlying ilaenv_ call -- the
wrapper's n4 argument is never forwarded, so the forwarded call (and hence
the result) is independent of n4 -- and the routine name passed down is the
input name prefixed with the kind's precision letter. -/
theorem ilaenv_forwards_n3_twice (ispec : Int) (nm opts : String)
    (n1 n2 n3 n4 m4 : Int) :
    (ilaenv_d ispec nm opts n1 n2 n3 n4 = ilaenv_d ispec nm opts n1 n2 n3 m4 ∧
     (ilaenv_d ispec nm opts n1 n2 n3 n4).dim3 = n3 ∧
     (ilaenv_d ispec nm opts n1 n2 n3 n4).dim4 = n3 ∧
     (ilaenv_d ispec nm opts n1 n2 n3 n4).routineName = "d" ++ nm) ∧
    (ilaenv_s ispec nm opts n1 n2 n3 n4 = ilaenv_s ispec nm opts n1 n2 n3 m4 ∧
     (ilaenv_s ispec nm opts n1 n2 n3 n4).dim3 = n3 ∧
     (ilaenv_s ispec nm opts n1 n2 n3 n4).dim4 = n3 ∧
     (ilaenv_s ispec nm opts n1 n2 n3 n4).routineName = "s" ++ nm) ∧
    (ilaenv_z ispec nm opts n1 n2 n3 n4 = ilaenv_z ispec nm opts n1 n2 n3 m4 ∧
     (ilaenv_z ispec nm opts n1 n2 n3 n4).dim3 = n3 ∧
     (ilaenv_z ispec nm opts n1 n2 n3 n4).dim4 = n3 ∧
     (ilaenv_z ispec nm opts n1 n2 n3 n4).routineName = "z" ++ nm) ∧
    (ilaenv_c ispec nm opts n1 n2 n3 n4 = ilaenv_c ispec nm opts n1 n2 n3 m4 ∧
     (ilaenv_c ispec nm opts n1 n2 n3 n4).dim3 = n3 ∧
     (ilaenv_c ispec nm opts n1 n2 n3 n4).dim4 = n3 ∧
     (ilaenv_c ispec nm opts n1 n2 n3 n4).routineName = "c" ++ nm) :=
  ⟨⟨rfl, rfl, rfl, rfl⟩, ⟨rfl, rfl, rfl, rfl⟩, ⟨rfl, rfl, rfl, rfl⟩,
   ⟨rfl, rfl, rfl, rfl⟩⟩

/-- Claim C3: all sixteen workspace-query wrappers (gelss, syev, syevx, gesdd
at the four element kinds) first invoke the underlying routine with scratch
length -1, read the first element of the scratch slot (its real part for the
complex kinds) cast to an integer via getLWork, allocate (or resize) a
scratch buffer of exactly that many elements, and re-invoke with that buffer
and length; the query call precedes the real call in every trace.  For
syev<complex<double>> the allocation and the real call happen exactly when
the checked query info is nonnegative. -/
theorem workspace_query_protocol (w : ℚ) (wc : ℚ × ℚ) (m n mn : Int)
    (jobz : Char) (infoQ : Int) :
    (0 ≤ infoQ → callsOf (syev_z_events n wc infoQ) =
       [("zheev", -1), ("zheev", getLWork_z (fun _ => wc))]) ∧
    (0 ≤ infoQ →
       Ev.allocCplx (getLWork_z (fun _ => wc)) ∈ syev_z_events n wc infoQ) ∧
    (infoQ < 0 → callsOf (syev_z_events n wc infoQ) = [("zheev", -1)]) ∧
    (callsOf (gelss_d_events w) =
       [("dgelss", -1), ("dgelss", getLWork_d (fun _ => w))]) ∧
    (Ev.allocReal (getLWork_d (fun _ => w)) ∈ gelss_d_events w) ∧
    (callsOf (gelss_s_events w) =
       [("sgelss", -1), ("sgelss", getLWork_s (fun _ => w))]) ∧
    (Ev.allocReal (getLWork_s (fun _ => w)) ∈ gelss_s_events w) ∧
    (callsOf (gelss_c_events mn wc) =
       [("cgelss", -1), ("cgelss", getLWork_c (fun _ => wc))]) ∧
    (Ev.allocCplx (getLWork_c (fun _ => wc)) ∈ gelss_c_events mn wc) ∧
    (callsOf (gelss_z_events mn wc) =
       [("zgelss", -1), ("zgelss", getLWork_z (fun _ => wc))]) ∧
    (Ev.allocCplx (getLWork_z (fun _ => wc)) ∈ gelss_z_events mn wc) ∧
    (callsOf (syev_s_events w) =
       [("ssyev", -1), ("ssyev", getLWork_s (fun _ => w))]) ∧
    (Ev.allocReal (getLWork_s (fun _ => w)) ∈ syev_s_events w) ∧
    (callsOf (syev_d_events w) =
       [("dsyev", -1), ("dsyev", getLWork_d (fun _ => w))]) ∧
    (Ev.allocReal (getLWork_d (fun _ => w)) ∈ syev_d_events w) ∧
    (callsOf (syev_c_events n wc) =
       [("cheev", -1), ("cheev", getLWork_c (fun _ => wc))]) ∧
    (Ev.allocCplx (getLWork_c (fun _ => wc)) ∈ syev_c_events n wc) ∧
    (callsOf (syevx_s_events n w) =
       [("ssyevx", -1), ("ssyevx", getLWork_s (fun _ => w))]) ∧
    (Ev.allocReal (getLWork_s (fun _ => w)) ∈ syevx_s_events n w) ∧
    (callsOf (syevx_d_events n w) =
       [("dsyevx", -1), ("dsyevx", getLWork_d (fun _ => w))]) ∧
    (Ev.allocReal (getLWork_d (fun _ => w)) ∈ syevx_d_events n w) ∧
    (callsOf (syevx_z_events n wc) =
       [("zheevx", -1), ("zheevx", getLWork_z (fun _ => wc))]) ∧
    (Ev.allocCplx (getLWork_z (fun _ => wc)) ∈ syevx_z_events n wc) ∧
    (callsOf (syevx_c_events n wc) =
       [("cheevx", -1), ("cheevx", getLWork_c (fun _ => wc))]) ∧
    (Ev.allocCplx (getLWork_c (fun _ => wc)) ∈ syevx_c_events n wc) ∧
    (callsOf (gesdd_s_events m n w) =
       [("sgesdd", -1), ("sgesdd", getLWork_s (fun _ => w))]) ∧
    (Ev.resizeReal (getLWork_s (fun _ => w)) ∈ gesdd_s_events m n w) ∧
    (callsOf (gesdd_d_events m n w) =
       [("dgesdd", -1), ("dgesdd", getLWork_d (fun _ => w))]) ∧
    (Ev.resizeReal (getLWork_d (fun _ => w)) ∈ gesdd_d_events m n w) ∧
    (callsOf (gesdd_c_events jobz m n wc) =
       [("cgesdd", -1), ("cgesdd", getLWork_c (fun _ => wc))]) ∧
    (Ev.resizeCplx (getLWork_c (fun _ => wc)) ∈ gesdd_c_events jobz m n wc) ∧
    (callsOf (gesdd_z_events jobz m n wc) =
       [("zgesdd", -1), ("zgesdd", getLWork_z (fun _ => wc))]) ∧
    (Ev.resizeCplx (getLWork_z (fun _ => wc)) ∈ gesdd_z_events jobz m n wc) := by
  refine ⟨fun h => ?_, fun h => ?_, fun h => ?_, rfl, ?_, rfl, ?_, rfl, ?_, rfl, ?_,
    rfl, ?_, rfl, ?_, rfl, ?_, rfl, ?_, rfl, ?_, rfl, ?_, rfl, ?_,
    rfl, ?_, rfl, ?_, rfl, ?_, rfl, ?_⟩
  · simp only [syev_z_events]
    rw [if_neg (not_lt.mpr h)]
    rfl
  · simp only [syev_z_events]
    rw [if_neg (not_lt.mpr h)]
    simp [getLWork_z]
  · simp only [syev_z_events]
    rw [if_pos h]
    rfl
  · simp [gelss_d_events, getLWork_d]
  · simp [gelss_s_events, getLWork_s]
  · simp [gelss_c_events, getLWork_c]
  · simp [gelss_z_events, getLWork_z]
  · simp [syev_s_events, getLWork_s]
  · simp [syev_d_events, getLWork_d]
  · simp [syev_c_events, getLWork_c]
  · simp [syevx_s_events, getLWork_s]
  · simp [syevx_d_events, getLWork_d]
  · simp [syevx_z_events, getLWork_z]
  · simp [syevx_c_events, getLWork_c]
  · simp [gesdd_s_events, getLWork_s]
  · simp [gesdd_d_events, getLWork_d]
  · simp [gesdd_c_events, getLWork_c]
  · simp [gesdd_z_events, getLWork_z]

/-- Concrete instance of the C3 theorem at the one guarded wrapper,
syev<complex<double>>, with a nonnegative query info. -/
theorem workspace_query_protocol_witness :
    callsOf (syev_z_events 3 (33, 5) 0) =
      [("zheev", -1), ("zheev", getLWork_z (fun _ => ((33 : ℚ), (5 : ℚ))))] ∧
    Ev.allocCplx (getLWork_z (fun _ => ((33 : ℚ), (5 : ℚ)))) ∈ syev_z_events 3 (33, 5) 0 := by
  have h := workspace_query_protocol 17 (33, 5) 4 3 3 'N' 0
  exact ⟨h.1 (by norm_num), h.2.1 (by norm_num)⟩

/-- Claim C5: complex gelss allocates a real scratch of 5*mn elements;
complex gesdd allocates an integer scratch of 8*mn elements and a real
scratch of 5*mn elements when jobz = 'N' and 5*mn*mn + 7*mn otherwise
(mn = min(m,n)); complex geev allocates a real scratch of 2*n elements --
at both complex element kinds each. -/
theorem complex_auxiliary_scratch_sizes (mn m n lwork : Int) (wc : ℚ × ℚ)
    (jobz : Char) :
    Ev.allocReal (5*mn) ∈ gelss_c_events mn wc ∧
    Ev.allocReal (5*mn) ∈ gelss_z_events mn wc ∧
    Ev.allocInt (8*(min m n)) ∈ gesdd_c_events jobz m n wc ∧
    Ev.resizeReal (if jobz = 'N' then 5*(min m n)
                   else 5*(min m n)*(min m n) + 7*(min m n)) ∈ gesdd_c_events jobz m n wc ∧
    Ev.allocInt (8*(min m n)) ∈ gesdd_z_events jobz m n wc ∧
    Ev.resizeReal (if jobz = 'N' then 5*(min m n)
                   else 5*(min m n)*(min m n) + 7*(min m n)) ∈ gesdd_z_events jobz m n wc ∧
    Ev.allocReal (2*n) ∈ geev_c_events n lwork ∧
    Ev.allocReal (2*n) ∈ geev_z_events n lwork := by
  refine ⟨?_, ?_, ?_, ?_, ?_, ?_, ?_, ?_⟩ <;>
    simp [gelss_c_events, gelss_z_events, gesdd_c_events, gesdd_z_events,
          geev_c_events, geev_z_events]

/-- Claim C6 counterexample: potrs<double> keeps info in a function-local
variable; a positive info from dpotrs_ raises nothing but is also NOT handed
back to the caller -- there is no info out-parameter, contradicting the
claim that every wrapper hands the positive code back. -/
theorem potrs_positive_info_dropped :
    potrs_d_info 1 = Except.ok none ∧
    potrs_d_info 1 ≠ Except.ok (some 1) := by
  constructor
  · rfl
  · intro hc
    have hc2 : (Except.ok none : Except (String × Int) (Option Int)) =
        Except.ok (some 1) := hc
    exact Option.noConfusion (Except.ok.inj hc2)

/-- Claim C6 amended: for every wrapper specialization, a positive info from
the underlying routine raises no exception; every wrapper that exposes an
`int& info` out-parameter hands the positive code back unchanged; the solve
wrappers potrs, sytrs and getrs keep info local and discard non-negative
codes (their result carries no info).  For syev<complex<double>> the real
call's info is handed back whenever the query info was nonnegative. -/
theorem positive_info_returned_as_data :
    (∀ i : Int, 0 < i → gelss_d_info i = Except.ok (some i)) ∧
    (∀ i : Int, 0 < i → potrs_d_info i = Except.ok none) ∧
    (∀ i : Int, 0 < i → getrf_d_info i = Except.ok (some i)) ∧
    (∀ iQ iR : Int, 0 ≤ iQ → 0 < iR → syev_z_info iQ iR = Except.ok (some iR)) ∧
    (∀ i : Int, 0 < i → gelss_s_info i = Except.ok (some i)) ∧
    (∀ i : Int, 0 < i → gelss_c_info i = Except.ok (some i)) ∧
    (∀ i : Int, 0 < i → gelss_z_info i = Except.ok (some i)) ∧
    (∀ i : Int, 0 < i → potrs_s_info i = Except.ok none) ∧
    (∀ i : Int, 0 < i → potrs_c_info i = Except.ok none) ∧
    (∀ i : Int, 0 < i → potrs_z_info i = Except.ok none) ∧
    (∀ i : Int, 0 < i → sytrs_d_info i = Except.ok none) ∧
    (∀ i : Int, 0 < i → sytrs_s_info i = Except.ok none) ∧
    (∀ i : Int, 0 < i → sytrs_c_info i = Except.ok none) ∧
    (∀ i : Int, 0 < i → sytrs_z_info i = Except.ok none) ∧
    (∀ i : Int, 0 < i → getrs_d_info i = Except.ok none) ∧
    (∀ i : Int, 0 < i → getrs_s_info i = Except.ok none) ∧
    (∀ i : Int, 0 < i → getrs_c_info i = Except.ok none) ∧
    (∀ i : Int, 0 < i → getrs_z_info i = Except.ok none) ∧
    (∀ i : Int, 0 < i → syevx_s_info i = Except.ok (some i)) ∧
    (∀ i : Int, 0 < i → syevx_d_info i = Except.ok (some i)) ∧
    (∀ i : Int, 0 < i → syevx_z_info i = Except.ok (some i)) ∧
    (∀ i : Int, 0 < i → syevx_c_info i = Except.ok (some i)) ∧
    (∀ i : Int, 0 < i → syev_s_info i = Except.ok (some i)) ∧
    (∀ i : Int, 0 < i → syev_d_info i = Except.ok (some i)) ∧
    (∀ i : Int, 0 < i → syev_c_info i = Except.ok (some i)) ∧
    (∀ i : Int, 0 < i → gesdd_s_info i = Except.ok (some i)) ∧
    (∀ i : Int, 0 < i → gesdd_d_info i = Except.ok (some i)) ∧
    (∀ i : Int, 0 < i → gesdd_c_info i = Except.ok (some i)) ∧
    (∀ i : Int, 0 < i → gesdd_z_info i = Except.ok (some i)) ∧
    (∀ i : Int, 0 < i → geev_d_info i = Except.ok (some i)) ∧
    (∀ i : Int, 0 < i → geev_s_info i = Except.ok (some i)) ∧
    (∀ i : Int, 0 < i → geev_c_info i = Except.ok (some i)) ∧
    (∀ i : Int, 0 < i → geev_z_info i = Except.ok (some i)) ∧
    (∀ i : Int, 0 < i → getrf_s_info i = Except.ok (some i)) ∧
    (∀ i : Int, 0 < i → getrf_z_info i = Except.ok (some i)) ∧
    (∀ i : Int, 0 < i → getrf_c_info i = Except.ok (some i)) ∧
    (∀ i : Int, 0 < i → tzrzf_d_info i = Except.ok (some i)) ∧
    (∀ i : Int, 0 < i → tzrzf_s_info i = Except.ok (some i)) ∧
    (∀ i : Int, 0 < i → tzrzf_c_info i = Except.ok (some i)) ∧
    (∀ i : Int, 0 < i → tzrzf_z_info i = Except.ok (some i)) ∧
    (∀ i : Int, 0 < i → geqp3_d_info i = Except.ok (some i)) ∧
    (∀ i : Int, 0 < i → geqp3_s_info i = Except.ok (some i)) ∧
    (∀ i : Int, 0 < i → geqp3_c_info i = Except.ok (some i)) ∧
    (∀ i : Int, 0 < i → geqp3_z_info i = Except.ok (some i)) ∧
    (∀ i : Int, 0 < i → lascl_d_info i = Except.ok (some i)) ∧
    (∀ i : Int, 0 < i → lascl_s_info i = Except.ok (some i)) ∧
    (∀ i : Int, 0 < i → lascl_c_info i = Except.ok (some i)) ∧
    (∀ i : Int, 0 < i → lascl_z_info i = Except.ok (some i)) ∧
    (∀ i : Int, 0 < i → ormqr_s_info i = Except.ok (some i)) ∧
    (∀ i : Int, 0 < i → ormqr_d_info i = Except.ok (some i)) ∧
    (∀ i : Int, 0 < i → ormqr_z_info i = Except.ok (some i)) ∧
    (∀ i : Int, 0 < i → ormqr_c_info i = Except.ok (some i)) ∧
    (∀ i : Int, 0 < i → ormrz_s_info i = Except.ok (some i)) ∧
    (∀ i : Int, 0 < i → ormrz_d_info i = Except.ok (some i)) ∧
    (∀ i : Int, 0 < i → ormrz_c_info i = Except.ok (some i)) ∧
    (∀ i : Int, 0 < i → ormrz_z_info i = Except.ok (some i)) ∧
    (∀ i : Int, 0 < i → potrf_d_info i = Except.ok (some i)) ∧
    (∀ i : Int, 0 < i → potrf_s_info i = Except.ok (some i)) ∧
    (∀ i : Int, 0 < i → potrf_z_info i = Except.ok (some i)) ∧
    (∀ i : Int, 0 < i → potrf_c_info i = Except.ok (some i)) ∧
    (∀ i : Int, 0 < i → sytrf_s_info i = Except.ok (some i)) ∧
    (∀ i : Int, 0 < i → sytrf_d_info i = Except.ok (some i)) ∧
    (∀ i : Int, 0 < i → sytrf_z_info i = Except.ok (some i)) ∧
    (∀ i : Int, 0 < i → sytrf_c_info i = Except.ok (some i)) :=
  ⟨checkedInfoOut_pos "dgelss", checkedInfoLocal_pos "dpotrs",
   fun _ _ => rfl,
   (fun iQ iR hQ _ => by
      unfold syev_z_info
      rw [if_neg (not_lt.mpr hQ)]),
   checkedInfoOut_pos "sgelss", checkedInfoOut_pos "cgelss", checkedInfoOut_pos "zgelss",
   checkedInfoLocal_pos "spotrs", checkedInfoLocal_pos "cpotrs", checkedInfoLocal_pos "zpotrs",
   checkedInfoLocal_pos "dsytrs", checkedInfoLocal_pos "ssytrs",
   checkedInfoLocal_pos "chetrs", checkedInfoLocal_pos "zhetrs",
   checkedInfoLocal_pos "dgetrs", checkedInfoLocal_pos "sgetrs",
   checkedInfoLocal_pos "cgetrs", checkedInfoLocal_pos "zgetrs",
   checkedInfoOut_pos "ssyevx", checkedInfoOut_pos "dsyevx",
   checkedInfoOut_pos "zheevx", checkedInfoOut_pos "cheevx",
   checkedInfoOut_pos "ssyev", checkedInfoOut_pos "dsyev", checkedInfoOut_pos "cheev",
   checkedInfoOut_pos "sgesdd", checkedInfoOut_pos "dgesdd",
   checkedInfoOut_pos "cgesdd", checkedInfoOut_pos "zgesdd",
   checkedInfoOut_pos "dgeev", checkedInfoOut_pos "sgeev",
   checkedInfoOut_pos "cgeev", checkedInfoOut_pos "zgeev",
   fun _ _ => rfl,
   checkedInfoOut_pos "zgetrf", checkedInfoOut_pos "cgetrf",
   checkedInfoOut_pos "dtzrzf", checkedInfoOut_pos "stzrzf", checkedInfoOut_pos "ctzrzf",
   fun _ _ => rfl,
   checkedInfoOut_pos "dgeqp3", checkedInfoOut_pos "sgeqp3",
   checkedInfoOut_pos "cgeqp3", checkedInfoOut_pos "zgeqp3",
   checkedInfoOut_pos "dlascl", checkedInfoOut_pos "slascl",
   checkedInfoOut_pos "clascl", checkedInfoOut_pos "zlascl",
   checkedInfoOut_pos "sormqr", checkedInfoOut_pos "dormqr",
   checkedInfoOut_pos "zunmqr", checkedInfoOut_pos "cunmqr",
   checkedInfoOut_pos "sormrz", checkedInfoOut_pos "dormrz",
   checkedInfoOut_pos "cunmrz", checkedInfoOut_pos "zunmrz",
   checkedInfoOut_pos "dpotrf", checkedInfoOut_pos "spotrf",
   checkedInfoOut_pos "zpotrf", checkedInfoOut_pos "cpotrf",
   checkedInfoOut_pos "ssytrf", checkedInfoOut_pos "dsytrf",
   checkedInfoOut_pos "zsytrf", checkedInfoOut_pos "csytrf"⟩

/-- Concrete instances of the C6 amended theorem at info = 2. -/
theorem positive_info_returned_as_data_witness :
    gelss_d_info 2 = Except.ok (some 2) ∧
    potrs_d_info 2 = Except.ok none ∧
    getrf_d_info 2 = Except.ok (some 2) ∧
    syev_z_info 0 2 = Except.ok (some 2) := by
  have h := positive_info_returned_as_data
  exact ⟨h.1 2 (by norm_num), h.2.1 2 (by norm_num), h.2.2.1 2 (by norm_num),
         h.2.2.2.1 0 2 (by norm_num) (by norm_num)⟩

/-- Claim C9: in real-kind geev the repacked outputs use column stride
exactly n regardless of ldvr: the assembled values array is
complex(wr[i], wi[i]) for every i < n, the repacked right-vector output does
not depend on the ldvr argument, the wi buffer is zero-initialized before
the underlying call, and a visited real column j is written at flat indices
j*n+i from the internal stride-n vr buffer. -/
theorem geev_real_output_stride (n ldvr ldvr2 : ℕ) (values0 rv0 : ℕ → ℚ × ℚ)
    (wr wi vr wi0 : ℕ → ℚ) (i j : ℕ) (hi : i < n) (hj : j < n)
    (hv : visited wi j = true) (hreal : |wi j| < EPS) :
    geevValuesOut n values0 wr wi i = (wr i, wi i) ∧
    wiZeroInit n wi0 i = 0 ∧
    geevRightVectors n ldvr wi vr rv0 = geevRightVectors n ldvr2 wi vr rv0 ∧
    geevRightVectors n ldvr wi vr rv0 (j*n+i) = (vr (j*n+i), 0) := by
  refine ⟨?_, ?_, rfl, ?_⟩
  · unfold geevValuesOut
    rw [if_pos hi]
  · unfold wiZeroInit
    rw [if_pos hi]
  · exact (repack_visit n wi vr n 0 rv0 (by omega) rfl j (Nat.zero_le j) hj hv).1 hreal i hi

/-- Concrete instance of the C9 theorem: n = 1, wi = 0 (a real eigenvalue),
two different ldvr arguments. -/
theorem geev_real_output_stride_witness :
    geevValuesOut 1 (fun _ => (9, 9)) (fun _ => 4) (fun _ => 0) 0 = (4, 0) ∧
    wiZeroInit 1 (fun _ => 8) 0 = 0 ∧
    geevRightVectors 1 5 (fun _ => 0) (fun _ => 6) (fun _ => (0, 0)) =
      geevRightVectors 1 7 (fun _ => 0) (fun _ => 6) (fun _ => (0, 0)) ∧
    geevRightVectors 1 5 (fun _ => 0) (fun _ => 6) (fun _ => (0, 0)) 0 = (6, 0) :=
  geev_real_output_stride 1 5 7 (fun _ => (9, 9)) (fun _ => (0, 0)) (fun _ => 4)
    (fun _ => 0) (fun _ => 6) (fun _ => 8) 0 0 (by decide) (by decide) rfl
    (by norm_num [EPS])

/-- Claim C10: lange at float and complex<float> equals the double-kind
wrapper applied to the promoted matrix (the element-wise copy into a
double-precision buffer with leading dimension m), and depends only on the
m-by-n matrix entries of the source buffer, not on buffer contents between
row m and the leading dimension of each column. -/
theorem lange_single_precision_promotes
    (dlange : Char → ℕ → ℕ → List ℚ → ℕ → ℚ)
    (zlange : Char → ℕ → ℕ → List (ℚ × ℚ) → ℕ → ℚ)
    (norm : Char) (m n lda : ℕ) (a a2 : ℕ → ℚ) (b b2 : ℕ → ℚ × ℚ)
    (ha : ∀ i, i < m → ∀ j, j < n → a (j*lda+i) = a2 (j*lda+i))
    (hb : ∀ i, i < m → ∀ j, j < n → b (j*lda+i) = b2 (j*lda+i)) :
    lange_s dlange norm m n a lda = lange_d dlange norm m n (daList m n lda a) m ∧
    lange_s dlange norm m n a lda = lange_s dlange norm m n a2 lda ∧
    lange_c zlange norm m n b lda = lange_z zlange norm m n (daList m n lda b) m ∧
    lange_c zlange norm m n b lda = lange_c zlange norm m n b2 lda := by
  refine ⟨rfl, ?_, rfl, ?_⟩
  · unfold lange_s
    rw [daList_congr m n lda a a2 ha]
  · unfold lange_c
    rw [daList_congr m n lda b b2 hb]

/-- Concrete instance of the C10 theorem: m = 2, n = 1, lda = 3; the two
source buffers differ only at the padding index 2 (between row m and lda),
and the wrapper's result is unchanged. -/
theorem lange_single_precision_promotes_witness :
    lange_s (fun _ _ _ buf _ => buf.foldr (· + ·) 0) 'M' 2 1
        (fun k => if k = 2 then 5 else 1) 3 =
      lange_s (fun _ _ _ buf _ => buf.foldr (· + ·) 0) 'M' 2 1
        (fun k => if k = 2 then 7 else 1) 3 ∧
    lange_c (fun _ _ _ buf _ => (buf.map Prod.fst).foldr (· + ·) 0) 'M' 2 1
        (fun k => if k = 2 then (5, 5) else (1, 1)) 3 =
      lange_c (fun _ _ _ buf _ => (buf.map Prod.fst).foldr (· + ·) 0) 'M' 2 1
        (fun k => if k = 2 then (7, 7) else (1, 1)) 3 := by
  have h := lange_single_precision_promotes
    (fun _ _ _ buf _ => buf.foldr (· + ·) 0)
    (fun _ _ _ buf _ => (buf.map Prod.fst).foldr (· + ·) 0)
    'M' 2 1 3
    (fun k => if k = 2 then 5 else 1) (fun k => if k = 2 then 7 else 1)
    (fun k => if k = 2 then (5, 5) else (1, 1))
    (fun k => if k = 2 then (7, 7) else (1, 1))
    (by decide) (by decide)
  exact ⟨h.2.1, h.2.2.2⟩
